import Mathlib

/-!
Verification of the PRD-Studio document pipeline.

This file gives a shallow embedding of the pure logic of the repository's
core modules (`core/version_manager.py`, `core/gemini_client.py`,
`core/utils.py`) and proves the specified properties about it.

External collaborators (the `hashlib.md5` digest, the current clock,
`difflib.unified_diff`, and the Gemini text-generation service) are not
code of this repository; they are modelled as explicit parameters, exactly
as the specification treats them (digest, timestamp, diff engine and
`TextGenerationPort` are external capabilities).  Every piece of control
flow belonging to the repository itself is translated from the source.
-/

namespace PRDStudio

/-! ## core/version_manager.py : save_version -/

/-- One entry of the in-memory version list, mirroring the dict literal
built by `save_version` (`core/version_manager.py`, lines 29-37). -/
structure VersionRecord where
  timestamp : String
  type : String
  content : String
  note : String
  hash : String
  word_count : Nat
  version_number : Nat
deriving Repr, DecidableEq

/-- The guard of `save_version` line 26: `versions and versions[-1]['content'] == content`. -/
def lastContentEq (versions : List VersionRecord) (content : String) : Bool :=
  match versions.getLast? with
  | some last => last.content == content
  | none => false

/-- `save_version(versions, version_type, content, note)` from
`core/version_manager.py` lines 9-40, with the two external effects made
explicit: `digest` is `hashlib.md5(·.encode()).hexdigest()` and `now` is
`datetime.now().strftime(...)`.  The Python function mutates `versions` in
place and returns a `bool`; here it returns the pair (returned bool,
resulting list). -/
def save_version (digest : String → String) (now : String)
    (versions : List VersionRecord) (version_type content note : String) :
    Bool × List VersionRecord :=
  let content_hash := (digest content).take 8
  if lastContentEq versions content then
    (false, versions)
  else
    (true, versions ++ [{
      timestamp := now
      type := version_type
      content := content
      note := note
      hash := content_hash
      word_count := content.length
      version_number := versions.length + 1 }])

/-- One requested append: timestamp, version type, content, note. -/
structure SaveCall where
  now : String
  version_type : String
  content : String
  note : String

/-- Run a sequence of `save_version` calls starting from the empty list. -/
def run_saves (digest : String → String) (calls : List SaveCall) : List VersionRecord :=
  calls.foldl (fun vs c => (save_version digest c.now vs c.version_type c.content c.note).2) []

/-! ## core/version_manager.py : show_diff -/

/-- Python `str.replace(c, r)` for a one-character needle `c`: every
occurrence of `c` is replaced by `r`, scanning left to right without
re-scanning the replacement text. -/
def pyReplace1 (c : Char) (r : String) (s : String) : String :=
  ⟨s.data.flatMap fun x => if x = c then r.data else [x]⟩

/-- Line 72 of `core/version_manager.py`:
`line.replace('&', '&amp;').replace('<', '&lt;').replace('>', '&gt;')`. -/
def htmlEscape (line : String) : String :=
  pyReplace1 '>' "&gt;" (pyReplace1 '<' "&lt;" (pyReplace1 '&' "&amp;" line))

/-- Python `str.startswith`. -/
def startswith (s p : String) : Bool :=
  p.data.isPrefixOf s.data

/-- The file-header span of line 74 (`color: #888`). -/
def headerSpan (s : String) : String :=
  "<span style=\"color: #888;\">" ++ s ++ "</span>"

/-- The addition span of line 76 (`color: #2ed573`). -/
def addSpan (s : String) : String :=
  "<span style=\"color: #2ed573; background: rgba(46,213,115,0.1);\">" ++ s ++ "</span>"

/-- The removal span of line 78 (`color: #ff4757`). -/
def delSpan (s : String) : String :=
  "<span style=\"color: #ff4757; background: rgba(255,71,87,0.1);\">" ++ s ++ "</span>"

/-- The hunk-marker span of line 80 (`color: #5352ed`). -/
def hunkSpan (s : String) : String :=
  "<span style=\"color: #5352ed;\">" ++ s ++ "</span>"

/-- The body of `show_diff`'s per-line loop (`core/version_manager.py`
lines 70-82): escape the line, then tag it by prefix. -/
def tagLine (line : String) : String :=
  let escaped_line := htmlEscape line
  if startswith line "+++" || startswith line "---" then headerSpan escaped_line
  else if startswith line "+" then addSpan escaped_line
  else if startswith line "-" then delSpan escaped_line
  else if startswith line "@@" then hunkSpan escaped_line
  else escaped_line

/-- Python line-break characters recognised by `str.splitlines`. -/
def isLineBreak (c : Char) : Bool :=
  c == '\n' || c == '\x0b' || c == '\x0c' || c == '\r' ||
  c == '\x1c' || c == '\x1d' || c == '\x1e' || c == '\u0085' ||
  c == '\u2028' || c == '\u2029'

/-- Worker for Python `str.splitlines(keepends=True)`; `acc` holds the
current (unterminated) line in reverse. -/
def splitlinesAux (acc : List Char) : List Char → List (List Char)
  | [] => if acc.isEmpty then [] else [acc.reverse]
  | '\r' :: '\n' :: rest => (acc.reverse ++ ['\r', '\n']) :: splitlinesAux [] rest
  | c :: rest =>
    if isLineBreak c then (acc.reverse ++ [c]) :: splitlinesAux [] rest
    else splitlinesAux (c :: acc) rest

/-- Python `str.splitlines(keepends=True)`, used on both inputs of
`show_diff` (lines 50-51). -/
def splitlines (s : String) : List String :=
  (splitlinesAux [] s.data).map fun l => ⟨l⟩

/-- The identical-content sentinel of line 64. -/
def no_diff_sentinel : String := "⚪ 兩個版本內容相同"

/-- The opening `<pre>` wrapper of line 84. -/
def preOpen : String :=
  "<pre style=\"background: #1e1e1e; padding: 1rem; border-radius: 8px; overflow-x: auto; font-size: 0.85rem;\">"

/-- `show_diff(old_content, new_content)` from `core/version_manager.py`
lines 43-85.  `difflib.unified_diff` is a standard-library collaborator,
not code of this repository, so the diff engine is an explicit parameter
`udiff` (with `fromfile`/`tofile`/`lineterm` already applied); everything
after it is translated from the source. -/
def show_diff (udiff : List String → List String → List String)
    (old_content new_content : String) : String :=
  let old_lines := splitlines old_content
  let new_lines := splitlines new_content
  let diff := udiff old_lines new_lines
  let diff_text := String.intercalate "\n" diff
  if diff_text == "" then no_diff_sentinel
  else
    let lines := diff_text.splitOn "\n"
    let html_lines := lines.map tagLine
    preOpen ++ String.intercalate "\n" html_lines ++ "</pre>"

/-! ## core/utils.py -/

/-- `convert_markdown_to_html(md_content, title)` from `core/utils.py`
lines 9-76.  `time.strftime('%Y-%m-%d %H:%M:%S')` is an external clock
read, passed in as `strftime_now`.  The doubled braces of the Python
f-string denote literal braces in the output. -/
def convert_markdown_to_html (strftime_now : String) (md_content : String) (title : String) : String :=
  "\n<!DOCTYPE html>\n<html lang=\"zh-TW\">\n<head>\n    <meta charset=\"UTF-8\">\n    <meta name=\"viewport\" content=\"width=device-width, initial-scale=1.0\">\n    <title>" ++
  title ++
  "</title>\n    <style>\n        body \x7b\n            font-family: \"Microsoft JhengHei\", \"微軟正黑體\", Arial, sans-serif;\n            max-width: 900px;\n            margin: 40px auto;\n            padding: 20px;\n            line-height: 1.8;\n            color: #333;\n        \x7d\n        h1 \x7b color: #2c3e50; border-bottom: 3px solid #3498db; padding-bottom: 10px; \x7d\n        h2 \x7b color: #34495e; margin-top: 30px; border-left: 4px solid #3498db; padding-left: 10px; \x7d\n        h3 \x7b color: #555; margin-top: 20px; \x7d\n        code \x7b\n            background: #f4f4f4;\n            padding: 2px 6px;\n            border-radius: 3px;\n            font-family: \"Consolas\", monospace;\n        \x7d\n        pre \x7b\n            background: #f8f8f8;\n            padding: 15px;\n            border-radius: 5px;\n            overflow-x: auto;\n            border-left: 4px solid #3498db;\n        \x7d\n        table \x7b\n            border-collapse: collapse;\n            width: 100%;\n            margin: 20px 0;\n        \x7d\n        th, td \x7b\n            border: 1px solid #ddd;\n            padding: 12px;\n            text-align: left;\n        \x7d\n        th \x7b\n            background: #3498db;\n            color: white;\n        \x7d\n        .footer \x7b\n            margin-top: 50px;\n            padding-top: 20px;\n            border-top: 1px solid #ddd;\n            text-align: center;\n            color: #999;\n            font-size: 0.9em;\n        \x7d\n    </style>\n</head>\n<body>\n" ++
  pyReplace1 '\n' "<br>" md_content ++
  "\n<div class=\"footer\">\n    文檔產生時間：" ++
  strftime_now ++
  "<br>\n    由 PRD Studio API 自動生成\n</div>\n</body>\n</html>\n"

/-- `convert_markdown_to_txt(md_content)` from `core/utils.py` lines 79-81:
`md_content.replace('#', '').replace('*', '').replace('`', '')`. -/
def convert_markdown_to_txt (md_content : String) : String :=
  pyReplace1 (Char.ofNat 96) "" (pyReplace1 '*' "" (pyReplace1 '#' "" md_content))

/-- `create_prd_zip(prd_content, critique_content)` from `core/utils.py`
lines 84-108.  The `zipfile` container is standard-library code; what the
repository decides is the ordered list of (entry name, entry text) pairs
written into it, which is what this function returns.  `critique_content`
defaults to `None` in Python and is tested for truthiness (`None` and `""`
are both falsy). -/
def create_prd_zip (strftime_now : String) (prd_content : String)
    (critique_content : Option String) : List (String × String) :=
  let base := [("prd.md", prd_content),
               ("prd.html", convert_markdown_to_html strftime_now prd_content "PRD"),
               ("prd.txt", convert_markdown_to_txt prd_content)]
  match critique_content with
  | none => base
  | some c =>
    if c == "" then base
    else base ++ [("critique.md", c),
                  ("critique.html", convert_markdown_to_html strftime_now c "CTO 審核報告")]

/-! ## core/gemini_client.py : critique validation -/

/-- The five required section labels (`core/gemini_client.py` line 241). -/
def required_sections : List String :=
  ["審核總評", "綜合評分", "通過檢查", "未通過檢查", "下一步行動"]

/-- Python `sub in s` substring containment, on character lists. -/
def substrIn (sub : List Char) : List Char → Bool
  | [] => sub.isEmpty
  | c :: t => sub.isPrefixOf (c :: t) || substrIn sub t

/-- The 29 characters matched by the whitespace class `\s` of Python's
`re` module on str patterns (`Py_UNICODE_ISSPACE`: the ASCII blanks, the
C1 separators, NEL, NBSP, the Unicode space separators and the line and
paragraph separators). -/
def pySpaceChars : List Char :=
  ['\x09', '\x0a', '\x0b', '\x0c', '\x0d', '\x1c', '\x1d', '\x1e', '\x1f', ' ',
   '\u0085', '\u00a0', '\u1680', '\u2000', '\u2001', '\u2002', '\u2003', '\u2004',
   '\u2005', '\u2006', '\u2007', '\u2008', '\u2009', '\u200a', '\u2028', '\u2029',
   '\u202f', '\u205f', '\u3000']

/-- The whitespace class `\s` of the score pattern, with the Unicode
semantics of Python's `re` module. -/
def pySpace (c : Char) : Bool :=
  pySpaceChars.contains c

/-- The inclusive codepoint ranges of the 660 Unicode decimal digits
(category Nd) matched by the digit class `\d` of Python's `re` module on
str patterns. -/
def ndRanges : List (Nat × Nat) :=
  [(48, 57), (1632, 1641), (1776, 1785), (1984, 1993), (2406, 2415), (2534, 2543),
   (2662, 2671), (2790, 2799), (2918, 2927), (3046, 3055), (3174, 3183), (3302, 3311),
   (3430, 3439), (3558, 3567), (3664, 3673), (3792, 3801), (3872, 3881), (4160, 4169),
   (4240, 4249), (6112, 6121), (6160, 6169), (6470, 6479), (6608, 6617), (6784, 6793),
   (6800, 6809), (6992, 7001), (7088, 7097), (7232, 7241), (7248, 7257), (42528, 42537),
   (43216, 43225), (43264, 43273), (43472, 43481), (43504, 43513), (43600, 43609),
   (44016, 44025), (65296, 65305), (66720, 66729), (68912, 68921), (69734, 69743),
   (69872, 69881), (69942, 69951), (70096, 70105), (70384, 70393), (70736, 70745),
   (70864, 70873), (71248, 71257), (71360, 71369), (71472, 71481), (71904, 71913),
   (72016, 72025), (72784, 72793), (73040, 73049), (73120, 73129), (92768, 92777),
   (92864, 92873), (93008, 93017), (120782, 120831), (123200, 123209), (123632, 123641),
   (125264, 125273), (130032, 130041)]

/-- The digit class `\d` of the score pattern, with the Unicode
semantics of Python's `re` module. -/
def pyDigit (c : Char) : Bool :=
  ndRanges.any fun r => r.1 ≤ c.toNat && c.toNat ≤ r.2

/-- The part of the pattern `綜合評分[：:]\s*(\d+)\s*/\s*100` after the
label and separator: optional blanks, a non-empty contiguous numeral,
optional blanks, `/`, optional blanks, the literal `100`.  Greedy matching
without backtracking is exact here because a digit is neither blank nor
`/`. -/
def scoreTail (l : List Char) : Bool :=
  let l1 := l.dropWhile pySpace
  let ds := l1.takeWhile pyDigit
  if ds.isEmpty then false
  else
    match (l1.dropWhile pyDigit).dropWhile pySpace with
    | '/' :: l2 => "100".data.isPrefixOf (l2.dropWhile pySpace)
    | _ => false

/-- Whether the score pattern matches at the head of `l`: the literal
label `綜合評分`, one separator `：` or `:`, then `scoreTail`. -/
def scoreMatchAt (l : List Char) : Bool :=
  "綜合評分".data.isPrefixOf l &&
  (match l.drop 4 with
   | c :: rest => (c == '：' || c == ':') && scoreTail rest
   | [] => false)

/-- `re.search` of the score pattern (line 249): the pattern matches at
some position of the text. -/
def scoreSearch : List Char → Bool
  | [] => scoreMatchAt []
  | c :: rest => scoreMatchAt (c :: rest) || scoreSearch rest

/-- `validate_critique_output(critique_text)` from `core/gemini_client.py`
lines 236-256: collect every missing section label, add the `評分格式`
marker when the score pattern is absent, and fail with the joined list
when anything is missing. -/
def validate_critique_output (critique_text : String) : Bool × String :=
  let missing := required_sections.filter fun sec => !(substrIn sec.data critique_text.data)
  let missing := if scoreSearch critique_text.data then missing else missing ++ ["評分格式"]
  if missing.isEmpty then (true, "")
  else (false, "缺少必要章節：" ++ String.intercalate ", " missing)

/-! ## core/gemini_client.py : critique and reflection engines -/

/-- State threaded through the engines: how many critic generation calls
have been made, how many backoff sleeps were performed, and the status
messages delivered to the `status_callback`. -/
structure GenState where
  calls : Nat
  sleeps : Nat
  notices : List String
deriving Repr, DecidableEq

/-- A fresh engine state. -/
def GenState.init : GenState := ⟨0, 0, []⟩

/-- The external collaborators of `core/gemini_client.py`: `get_client()`
(which raises when `GEMINI_API_KEY` is unset), the critic generation call
(indexed by how many critic calls were already made, so a stub can answer
differently per attempt, and given the prompt text), the refine generation
call, and whether a `status_callback` was supplied.  `Except.error e`
models the call raising an exception whose string form is `e`;
`Except.ok t` models a normal return whose `response.text`, with `None`
collapsed to `""`, equals `t` (every use of the text in the source goes
through `or`, which cannot tell `None` from `""`). -/
structure Env where
  clientOk : Except String Unit
  criticResp : Nat → String → Except String String
  refineResp : String → Except String String
  hasCallback : Bool

/-- `criticize_plan(plan_content)` (lines 216-233).  `get_client()` is
called before the `try` block, so a client-initialisation failure
propagates; an exception from the generation call itself is caught and
becomes the `❌ 審核失敗：` notice.  The generation call is counted whether
it succeeds or raises. -/
def criticize_plan (env : Env) (plan_content : String) (st : GenState) :
    Except String String × GenState :=
  match env.clientOk with
  | .error e => (.error e, st)
  | .ok _ =>
    match env.criticResp st.calls ("請審核以下 PRD：\n\n" ++ plan_content) with
    | .ok t => (.ok t, { st with calls := st.calls + 1 })
    | .error e => (.ok ("❌ 審核失敗：" ++ e), { st with calls := st.calls + 1 })

/-- The retry message of line 278. -/
def retryNotice (error_msg : String) (attempt : Nat) : String :=
  "⚠️ 審核格式不完整（" ++ error_msg ++ "），正在重試... (第 " ++ toString (attempt + 1) ++ " 次)"

/-- The final-fallback message of line 282. -/
def finalNotice (error_msg : String) : String :=
  "⚠️ 審核報告格式可能不完整：" ++ error_msg

/-- The `for attempt in range(max_retry)` loop of
`criticize_plan_with_validation` (lines 268-283), entered at `attempt`.
Falling off the loop (possible only when it never ran, i.e.
`max_retry = 0`) reaches the trailing `return critique` with `critique`
unbound, which raises `UnboundLocalError`; that is modelled as an error
result. -/
def criticize_loop (env : Env) (plan_content : String) (max_retry : Nat) :
    Nat → GenState → Except String String × GenState
  | attempt, st =>
    if attempt < max_retry then
      match criticize_plan env plan_content st with
      | (.error e, st1) => (.error e, st1)
      | (.ok critique, st1) =>
        let v := validate_critique_output critique
        if v.1 then (.ok critique, st1)
        else if attempt < max_retry - 1 then
          criticize_loop env plan_content max_retry (attempt + 1)
            { st1 with
              sleeps := st1.sleeps + 1
              notices := if env.hasCallback then st1.notices ++ [retryNotice v.2 attempt]
                         else st1.notices }
        else
          (.ok critique,
           { st1 with notices := if env.hasCallback then st1.notices ++ [finalNotice v.2]
                                 else st1.notices })
    else (.error "UnboundLocalError", st)
termination_by attempt _ => max_retry - attempt
decreasing_by simp_wf; omega

/-- `criticize_plan_with_validation(plan_content, max_retry, status_callback)`
(lines 259-285). -/
def criticize_plan_with_validation (env : Env) (plan_content : String)
    (max_retry : Nat) (st : GenState) : Except String String × GenState :=
  criticize_loop env plan_content max_retry 0 st

/-- The refine prompt built at lines 307-315. -/
def refine_prompt (current_plan critique_text : String) : String :=
  "請根據 CTO 審核報告修正 PRD。\n\n原始 PRD：\n" ++ current_plan ++
  "\n\nCTO 審核報告：\n" ++ critique_text ++
  "\n\n請逐條回應 CTO 的建議，並輸出完整的修正後 PRD。"

/-- `run_deep_reflection(current_plan, status_callback)` (lines 288-331).
`get_client()` at line 299 runs before the `try` block, so a
client-initialisation failure propagates to the caller; any exception
raised inside the `try` block (critique step or refine step) is caught and
converted to the `❌ 深度審核失敗：` notice paired with the unchanged plan.
An empty refine text falls back to `current_plan`
(`refine_resp.text or current_plan`, line 326).  The validated critique
runs with its default `max_retry = 2`. -/
def run_deep_reflection (env : Env) (current_plan : String) (st : GenState) :
    Except String (String × String) × GenState :=
  match env.clientOk with
  | .error e => (.error e, st)
  | .ok _ =>
    match criticize_plan_with_validation env current_plan 2 st with
    | (.error e, st1) => (.ok ("❌ 深度審核失敗：" ++ e, current_plan), st1)
    | (.ok critique_text, st1) =>
      match env.refineResp (refine_prompt current_plan critique_text) with
      | .error e => (.ok ("❌ 深度審核失敗：" ++ e, current_plan), st1)
      | .ok t => (.ok (critique_text, if t == "" then current_plan else t), st1)

/-! ## Claims about save_version (C1, C2) -/

/-- C1: `save_version` returns `False` and leaves the list unchanged
exactly when the list is non-empty and the last record's content equals
the new content; otherwise it returns `True` and appends exactly one
record whose `version_number` is the new length, whose `content` is the
given content, and whose `hash` is the full digest truncated to 8
characters.  The dedup decision never depends on the digest. -/
theorem save_version_correct (digest : String → String) (now : String)
    (versions : List VersionRecord) (version_type content note : String) :
    (lastContentEq versions content = true ↔
      ∃ last, versions.getLast? = some last ∧ last.content = content) ∧
    (lastContentEq versions content = true →
      save_version digest now versions version_type content note = (false, versions)) ∧
    (lastContentEq versions content = false →
      save_version digest now versions version_type content note =
        (true, versions ++ [{ timestamp := now, type := version_type, content := content,
                              note := note, hash := (digest content).take 8,
                              word_count := content.length,
                              version_number := versions.length + 1 }]) ∧
      ((save_version digest now versions version_type content note).2).length
        = versions.length + 1) ∧
    (∀ digest2 : String → String,
      (save_version digest now versions version_type content note).1 =
      (save_version digest2 now versions version_type content note).1) := by
  refine ⟨?_, ?_, ?_, ?_⟩
  · unfold lastContentEq
    cases h : versions.getLast? with
    | none => simp
    | some last => simp [beq_iff_eq]
  · intro h
    simp [save_version, h]
  · intro h
    refine ⟨by simp [save_version, h], by simp [save_version, h]⟩
  · intro digest2
    by_cases h : lastContentEq versions content <;> simp [save_version, h]

/-- Witness for C1 at a concrete store: a duplicate append is refused and
a fresh append succeeds with hash prefix, word count and number filled. -/
theorem save_version_correct_witness :
    (save_version (fun _ => "5d41402abc4b2a76") "t1"
        [{ timestamp := "t0", type := "manual", content := "hello", note := "",
           hash := "5d41402a", word_count := 5, version_number := 1 }]
        "manual" "hello" "" =
      (false,
        [{ timestamp := "t0", type := "manual", content := "hello", note := "",
           hash := "5d41402a", word_count := 5, version_number := 1 }])) ∧
    (save_version (fun _ => "0cc175b9c0f1b6a8") "t1"
        [{ timestamp := "t0", type := "manual", content := "hello", note := "",
           hash := "5d41402a", word_count := 5, version_number := 1 }]
        "manual" "a" "" =
      (true,
        [{ timestamp := "t0", type := "manual", content := "hello", note := "",
           hash := "5d41402a", word_count := 5, version_number := 1 },
         { timestamp := "t1", type := "manual", content := "a", note := "",
           hash := "0cc175b9", word_count := 1, version_number := 2 }]) ∧
      (save_version (fun _ => "0cc175b9c0f1b6a8") "t1"
        [{ timestamp := "t0", type := "manual", content := "hello", note := "",
           hash := "5d41402a", word_count := 5, version_number := 1 }]
        "manual" "a" "").2.length = 2) :=
  ⟨(save_version_correct _ "t1" _ "manual" "hello" "").2.1 (by decide),
   (save_version_correct _ "t1" _ "manual" "a" "").2.2.1 (by decide)⟩

/-- The numbering-and-dedup invariant of the version store. -/
def StoreInv (vs : List VersionRecord) : Prop :=
  (∀ i (h : i < vs.length), (vs.get ⟨i, h⟩).version_number = i + 1) ∧
  (∀ i (h : i + 1 < vs.length),
    (vs.get ⟨i, Nat.lt_of_succ_lt h⟩).content ≠ (vs.get ⟨i + 1, h⟩).content)

theorem storeInv_nil : StoreInv [] :=
  ⟨fun i h => absurd h (by simp), fun i h => absurd h (by simp)⟩

theorem storeInv_step (digest : String → String) (now : String)
    (vs : List VersionRecord) (version_type content note : String)
    (hinv : StoreInv vs) :
    StoreInv (save_version digest now vs version_type content note).2 := by
  by_cases hdup : lastContentEq vs content
  · simpa [save_version, hdup] using hinv
  · simp only [save_version, hdup, Bool.false_eq_true, not_false_eq_true, if_false, if_neg]
    constructor
    · intro i h
      simp only [List.get_eq_getElem]
      have hlen : i < vs.length + 1 := by simpa using h
      rcases Nat.lt_succ_iff_lt_or_eq.mp hlen with hi | hi
      · rw [List.getElem_append_left hi]
        simpa [List.get_eq_getElem] using hinv.1 i hi
      · subst hi
        simp
    · intro i h
      simp only [List.get_eq_getElem]
      have hlen : i + 1 < vs.length + 1 := by simpa using h
      rcases Nat.lt_succ_iff_lt_or_eq.mp hlen with hi | hi
      · rw [List.getElem_append_left hi, List.getElem_append_left (Nat.lt_of_succ_lt hi)]
        simpa [List.get_eq_getElem] using hinv.2 i hi
      · -- the new pair: last of vs against the freshly appended record
        have hi' : i < vs.length := by omega
        have hlast : vs.getLast? = some vs[i] := by
          rw [List.getLast?_eq_getElem?]
          have hidx : vs.length - 1 = i := by omega
          rw [hidx, List.getElem?_eq_getElem hi']
        have hne : vs[i].content ≠ content := by
          intro hc
          apply hdup
          unfold lastContentEq
          rw [hlast]
          simpa using hc
        rw [List.getElem_append_left hi']
        rw [List.getElem_append_right (by omega)]
        have hidx : i + 1 - vs.length = 0 := by omega
        simpa [hidx] using hne

/-- C2: starting from the empty list, after any sequence of
`save_version` calls the i-th record (1-indexed) carries
`version_number = i` and no two adjacent records have identical content. -/
theorem run_saves_invariant (digest : String → String) (calls : List SaveCall) :
    (∀ i (h : i < (run_saves digest calls).length),
      ((run_saves digest calls).get ⟨i, h⟩).version_number = i + 1) ∧
    (∀ i (h : i + 1 < (run_saves digest calls).length),
      ((run_saves digest calls).get ⟨i, Nat.lt_of_succ_lt h⟩).content ≠
      ((run_saves digest calls).get ⟨i + 1, h⟩).content) := by
  have main : ∀ (cs : List SaveCall) (vs : List VersionRecord), StoreInv vs →
      StoreInv (cs.foldl
        (fun vs c => (save_version digest c.now vs c.version_type c.content c.note).2) vs) := by
    intro cs
    induction cs with
    | nil => intro vs h; simpa using h
    | cons c t ih =>
      intro vs h
      exact ih _ (storeInv_step digest c.now vs c.version_type c.content c.note h)
  exact main calls [] storeInv_nil

/-- Witness for C2 on the run `a, a (deduplicated), b`: the second stored
record is numbered 2 and differs in content from the first. -/
theorem run_saves_invariant_witness :
    ((run_saves (fun _ => "0123456789abcdef")
        [⟨"t1", "manual", "a", ""⟩, ⟨"t2", "manual", "a", ""⟩, ⟨"t3", "manual", "b", ""⟩]).get
        ⟨1, by decide⟩).version_number = 2 ∧
    ((run_saves (fun _ => "0123456789abcdef")
        [⟨"t1", "manual", "a", ""⟩, ⟨"t2", "manual", "a", ""⟩, ⟨"t3", "manual", "b", ""⟩]).get
        ⟨0, by decide⟩).content ≠
    ((run_saves (fun _ => "0123456789abcdef")
        [⟨"t1", "manual", "a", ""⟩, ⟨"t2", "manual", "a", ""⟩, ⟨"t3", "manual", "b", ""⟩]).get
        ⟨1, by decide⟩).content :=
  ⟨(run_saves_invariant _ _).1 1 (by decide), (run_saves_invariant _ _).2 0 (by decide)⟩

/-! ## Claims about validate_critique_output (C5, C6) -/

theorem substrIn_iff_infix (sub s : List Char) : substrIn sub s = true ↔ sub <:+: s := by
  induction s with
  | nil =>
    simp only [substrIn, List.isEmpty_iff]
    constructor
    · rintro rfl; exact List.infix_rfl
    · intro h; simpa using h.length_le
  | cons c t ih =>
    simp [substrIn, ih, List.isPrefixOf_iff_prefix, List.infix_cons_iff]

theorem pySpace_not_pyDigit {c : Char} (h : pySpace c = true) : pyDigit c = false := by
  have hc : c ∈ pySpaceChars := by simpa [pySpace] using h
  fin_cases hc <;> decide

theorem pyDigit_not_pySpace {c : Char} (h : pyDigit c = true) : pySpace c = false := by
  cases hps : pySpace c with
  | false => rfl
  | true => rw [pySpace_not_pyDigit hps] at h; exact absurd h (by simp)

/-- The language of the score pattern `綜合評分[：:]\s*(\d+)\s*/\s*100`
anchored at the start of `l`: the literal label, one separator, blanks, a
non-empty digit run, blanks, a slash, blanks, the literal `100`, anything
after. -/
def ScoreMatch (l : List Char) : Prop :=
  ∃ sep ws1 ds ws2 ws3 rest,
    l = "綜合評分".data ++
        sep :: (ws1 ++ (ds ++ (ws2 ++ ('/' :: (ws3 ++ ("100".data ++ rest)))))) ∧
    (sep = '：' ∨ sep = ':') ∧
    (∀ c ∈ ws1, pySpace c = true) ∧ ds ≠ [] ∧ (∀ c ∈ ds, pyDigit c = true) ∧
    (∀ c ∈ ws2, pySpace c = true) ∧ (∀ c ∈ ws3, pySpace c = true)

/-- `re.search` semantics: the pattern matches at some position. -/
def ScoreSpec (l : List Char) : Prop :=
  ∃ pre suf, l = pre ++ suf ∧ ScoreMatch suf

theorem scoreMatchAt_iff (l : List Char) : scoreMatchAt l = true ↔ ScoreMatch l := by
  constructor
  · intro h
    simp only [scoreMatchAt, Bool.and_eq_true] at h
    obtain ⟨hp, hm⟩ := h
    obtain ⟨t, ht⟩ := List.isPrefixOf_iff_prefix.mp hp
    rw [← ht] at hm ⊢
    rw [show (4 : Nat) = ("綜合評分".data).length from rfl, List.drop_left] at hm
    cases t with
    | nil => exact absurd hm (by simp)
    | cons sep rest =>
      simp only [Bool.and_eq_true] at hm
      obtain ⟨hsep, hst⟩ := hm
      simp only [scoreTail] at hst
      split at hst
      · exact absurd hst (by simp)
      · next hne =>
        split at hst
        · next l2 heq =>
          obtain ⟨r100, hr⟩ := List.isPrefixOf_iff_prefix.mp hst
          refine ⟨sep, rest.takeWhile pySpace,
                  (rest.dropWhile pySpace).takeWhile pyDigit,
                  ((rest.dropWhile pySpace).dropWhile pyDigit).takeWhile pySpace,
                  l2.takeWhile pySpace, l2.dropWhile pySpace |>.drop 3,
                  ?_, by simpa using hsep,
                  fun c hc => List.mem_takeWhile_imp hc,
                  fun hnil => (by simp [hnil] at hne),
                  fun c hc => List.mem_takeWhile_imp hc,
                  fun c hc => List.mem_takeWhile_imp hc,
                  fun c hc => List.mem_takeWhile_imp hc⟩
          have h100 : "100".data ++ (l2.dropWhile pySpace).drop 3 = l2.dropWhile pySpace := by
            rw [← hr]
            rw [List.drop_left' (by rfl)]
          have e4 : l2.takeWhile pySpace ++ ("100".data ++ (l2.dropWhile pySpace).drop 3) = l2 := by
            rw [h100]
            exact List.takeWhile_append_dropWhile pySpace l2
          have e3 : ((rest.dropWhile pySpace).dropWhile pyDigit).takeWhile pySpace ++
              ('/' :: (l2.takeWhile pySpace ++ ("100".data ++ (l2.dropWhile pySpace).drop 3))) =
              (rest.dropWhile pySpace).dropWhile pyDigit := by
            rw [e4, ← heq]
            exact List.takeWhile_append_dropWhile pySpace _
          have e2 : (rest.dropWhile pySpace).takeWhile pyDigit ++
              (((rest.dropWhile pySpace).dropWhile pyDigit).takeWhile pySpace ++
                ('/' :: (l2.takeWhile pySpace ++ ("100".data ++ (l2.dropWhile pySpace).drop 3)))) =
              rest.dropWhile pySpace := by
            rw [e3]
            exact List.takeWhile_append_dropWhile pyDigit _
          have e1 : rest.takeWhile pySpace ++
              ((rest.dropWhile pySpace).takeWhile pyDigit ++
                (((rest.dropWhile pySpace).dropWhile pyDigit).takeWhile pySpace ++
                  ('/' :: (l2.takeWhile pySpace ++ ("100".data ++ (l2.dropWhile pySpace).drop 3))))) =
              rest := by
            rw [e2]
            exact List.takeWhile_append_dropWhile pySpace rest
          rw [e1]
        · exact absurd hst (by simp)
  · rintro ⟨sep, ws1, ds, ws2, ws3, rest, rfl, hsep, hws1, hds, hdig, hws2, hws3⟩
    obtain ⟨d, ds', rfl⟩ := List.exists_cons_of_ne_nil hds
    have hd : pySpace d = false := pyDigit_not_pySpace (hdig d (by simp))
    have hslash_d : pyDigit '/' = false := by decide
    have hslash_s : pySpace '/' = false := by decide
    have hkey1 : (ws1 ++ ((d :: ds') ++ (ws2 ++ ('/' :: (ws3 ++ ("100".data ++ rest)))))).dropWhile
        pySpace = (d :: ds') ++ (ws2 ++ ('/' :: (ws3 ++ ("100".data ++ rest)))) := by
      rw [List.dropWhile_append_of_pos hws1, List.cons_append, List.dropWhile_cons, hd]
      simp
    have htB : (ws2 ++ ('/' :: (ws3 ++ ("100".data ++ rest)))).takeWhile pyDigit = [] := by
      rcases ws2 with _ | ⟨w, ws2t⟩
      · simp [List.takeWhile_cons, hslash_d]
      · have hw : pyDigit w = false := pySpace_not_pyDigit (hws2 w (by simp))
        simp [List.takeWhile_cons, hw]
    have hdB : (ws2 ++ ('/' :: (ws3 ++ ("100".data ++ rest)))).dropWhile pyDigit =
        ws2 ++ ('/' :: (ws3 ++ ("100".data ++ rest))) := by
      rcases ws2 with _ | ⟨w, ws2t⟩
      · simp [List.dropWhile_cons, hslash_d]
      · have hw : pyDigit w = false := pySpace_not_pyDigit (hws2 w (by simp))
        simp [List.dropWhile_cons, hw]
    have hkey2 : ((d :: ds') ++ (ws2 ++ ('/' :: (ws3 ++ ("100".data ++ rest))))).takeWhile
        pyDigit = d :: ds' := by
      rw [List.takeWhile_append_of_pos hdig, htB, List.append_nil]
    have hkey3 : ((d :: ds') ++ (ws2 ++ ('/' :: (ws3 ++ ("100".data ++ rest))))).dropWhile
        pyDigit = ws2 ++ ('/' :: (ws3 ++ ("100".data ++ rest))) := by
      rw [List.dropWhile_append_of_pos hdig, hdB]
    have hkey4 : (ws2 ++ ('/' :: (ws3 ++ ("100".data ++ rest)))).dropWhile pySpace =
        '/' :: (ws3 ++ ("100".data ++ rest)) := by
      rw [List.dropWhile_append_of_pos hws2, List.dropWhile_cons]
      simp [hslash_s]
    have hkey5 : (ws3 ++ ("100".data ++ rest)).dropWhile pySpace = "100".data ++ rest := by
      rw [List.dropWhile_append_of_pos hws3]
      rfl
    simp only [scoreMatchAt, Bool.and_eq_true]
    constructor
    · exact List.isPrefixOf_iff_prefix.mpr ⟨_, rfl⟩
    · rw [show (4 : Nat) = ("綜合評分".data).length from rfl, List.drop_left]
      simp only [Bool.and_eq_true]
      refine ⟨by rcases hsep with rfl | rfl <;> simp, ?_⟩
      simp only [scoreTail, hkey1, hkey2, hkey3, hkey4, hkey5]
      simp [List.isPrefixOf_iff_prefix.mpr ⟨rest, rfl⟩]

theorem scoreSearch_iff (l : List Char) : scoreSearch l = true ↔ ScoreSpec l := by
  induction l with
  | nil =>
    simp only [scoreSearch]
    constructor
    · intro h
      exact absurd h (by decide)
    · rintro ⟨pre, suf, heq, hm⟩
      obtain ⟨sep, ws1, ds, ws2, ws3, rest, hsuf, _⟩ := hm
      have hsnil : suf = [] := (List.append_eq_nil.mp heq.symm).2
      rw [hsnil] at hsuf
      exact absurd hsuf (by simp)
  | cons c t ih =>
    simp only [scoreSearch, Bool.or_eq_true, ih]
    rw [scoreMatchAt_iff]
    constructor
    · rintro (h | ⟨pre, suf, heq, hm⟩)
      · exact ⟨[], c :: t, rfl, h⟩
      · exact ⟨c :: pre, suf, by rw [heq, List.cons_append], hm⟩
    · rintro ⟨pre, suf, heq, hm⟩
      cases pre with
      | nil =>
        left
        simp only [List.nil_append] at heq
        rwa [heq]
      | cons p pre' =>
        right
        rw [List.cons_append] at heq
        injection heq with h1 h2
        exact ⟨pre', suf, h2, hm⟩

theorem missing_filter_iff (t : String) :
    (required_sections.filter fun sec => !(substrIn sec.data t.data)) = [] ↔
      ∀ sec ∈ required_sections, sec.data <:+: t.data := by
  simp [List.filter_eq_nil, substrIn_iff_infix]

/-- C5: `validate_critique_output` returns `(True, "")` exactly when all
five required section labels occur as literal substrings and the score
pattern matches somewhere; otherwise it returns `(False, reason)` where
the reason lists every missing label and, exactly when the score pattern
is absent, the score-format marker — all failures collected, none
short-circuiting. -/
theorem validate_critique_output_correct (t : String) :
    (validate_critique_output t = (true, "") ↔
      ((∀ sec ∈ required_sections, sec.data <:+: t.data) ∧ ScoreSpec t.data)) ∧
    (validate_critique_output t ≠ (true, "") →
      validate_critique_output t =
        (false, "缺少必要章節：" ++ String.intercalate ", "
          ((required_sections.filter fun sec => !(substrIn sec.data t.data)) ++
            if scoreSearch t.data then [] else ["評分格式"]))) := by
  have hchar := missing_filter_iff t
  have hscore := scoreSearch_iff t.data
  by_cases hs : scoreSearch t.data
  · by_cases hf : (required_sections.filter fun sec => !(substrIn sec.data t.data)) = []
    · constructor
      · constructor
        · intro _
          exact ⟨hchar.mp hf, hscore.mp hs⟩
        · intro _
          simp [validate_critique_output, hs, hf]
      · intro hne
        exact absurd (by simp [validate_critique_output, hs, hf]) hne
    · constructor
      · constructor
        · intro h
          exact absurd h (by simp [validate_critique_output, hs, hf, List.isEmpty_iff])
        · rintro ⟨h1, _⟩
          exact absurd (hchar.mpr h1) hf
      · intro _
        simp [validate_critique_output, hs, hf, List.isEmpty_iff]
  · constructor
    · constructor
      · intro h
        exact absurd h (by simp [validate_critique_output, hs, List.isEmpty_iff])
      · rintro ⟨_, h2⟩
        exact absurd (hscore.mpr h2) hs
    · intro _
      simp [validate_critique_output, hs, List.isEmpty_iff]

/-- Witness for C5 at a critique text missing all five sections and the
score line: every label and the score-format marker appear in the reason. -/
theorem validate_critique_output_correct_witness :
    validate_critique_output "hello" =
      (false, "缺少必要章節：審核總評, 綜合評分, 通過檢查, 未通過檢查, 下一步行動, 評分格式") := by
  have h := (validate_critique_output_correct "hello").2 (by decide)
  rw [h]
  decide

/-- C6: the validator does not range-check the score numerator — a
critique with `綜合評分: 150/100` and all five section labels validates
as ok with empty reason. -/
theorem validator_accepts_out_of_range_score :
    validate_critique_output "審核總評 綜合評分: 150/100 通過檢查 未通過檢查 下一步行動" =
      (true, "") := by
  decide

/-! ## Claims about the critique engine (C4, C10) -/

/-- C4: with a collaborator that answers both attempts with an invalid
critique, `criticize_plan_with_validation(doc, max_retry=2)` makes exactly
2 generation calls, sleeps exactly once between them, returns the invalid
critique of the second call as-is, and never raises. -/
theorem criticize_retry_bound (env : Env) (plan : String) (st : GenState) (bad0 bad1 : String)
    (hc : env.clientOk = .ok ())
    (h0 : ∀ p, env.criticResp st.calls p = .ok bad0)
    (h1 : ∀ p, env.criticResp (st.calls + 1) p = .ok bad1)
    (hv0 : (validate_critique_output bad0).1 = false)
    (hv1 : (validate_critique_output bad1).1 = false) :
    criticize_plan_with_validation env plan 2 st =
      (.ok bad1,
       { calls := st.calls + 2, sleeps := st.sleeps + 1,
         notices := if env.hasCallback
                    then st.notices ++ [retryNotice (validate_critique_output bad0).2 0,
                                        finalNotice (validate_critique_output bad1).2]
                    else st.notices }) := by
  unfold criticize_plan_with_validation
  rw [criticize_loop]
  simp only [criticize_plan, hc, h0, hv0]
  norm_num
  rw [criticize_loop]
  simp only [criticize_plan, hc, h1, hv1]
  norm_num
  by_cases hcb : env.hasCallback <;> simp [hcb]

/-- Witness for C4: a stub answering `badA` then `badB` (both invalid)
drives the engine to 2 calls, 1 sleep, and the second text as result. -/
theorem criticize_retry_bound_witness :
    criticize_plan_with_validation
      { clientOk := .ok (),
        criticResp := fun n _ => .ok (if n = 0 then "badA" else "badB"),
        refineResp := fun _ => .ok "", hasCallback := false } "doc" 2 GenState.init =
      (.ok "badB", { calls := 2, sleeps := 1, notices := [] }) := by
  have h := criticize_retry_bound
    { clientOk := .ok (),
      criticResp := fun n _ => .ok (if n = 0 then "badA" else "badB"),
      refineResp := fun _ => .ok "", hasCallback := false } "doc" GenState.init
    "badA" "badB" rfl (fun p => rfl) (fun p => rfl) (by decide) (by decide)
  rw [h]
  rfl

/-- C10 counterexample: when the generation call raises with a message
that itself contains all five section labels and a valid score line, the
`❌ 審核失敗：` failure notice passes validation, so
`criticize_plan_with_validation` accepts it after a single call instead of
consuming both attempts — the claim's "that string fails critique
validation" does not hold for every exception text. -/
theorem criticize_error_notice_can_validate :
    criticize_plan_with_validation
      { clientOk := .ok (),
        criticResp := fun _ _ =>
          .error "審核總評 綜合評分: 87/100 通過檢查 未通過檢查 下一步行動",
        refineResp := fun _ => .ok "", hasCallback := false } "doc" 2 GenState.init =
      (.ok "❌ 審核失敗：審核總評 綜合評分: 87/100 通過檢查 未通過檢查 下一步行動",
       { calls := 1, sleeps := 0, notices := [] }) := by
  unfold criticize_plan_with_validation
  rw [criticize_loop]
  norm_num [criticize_plan]
  rw [if_pos (by decide)]
  rfl

/-- C10 (amended): when the generation call raises on both attempts,
`criticize_plan` converts each exception into the `❌ 審核失敗：` notice
instead of propagating, and — provided those notice strings fail critique
validation, as any ordinary exception text does — the validated wrapper
consumes both attempts with one backoff sleep and returns the second
notice, never raising. -/
theorem criticize_service_failure_soft (env : Env) (plan : String) (st : GenState)
    (e0 e1 : String)
    (hc : env.clientOk = .ok ())
    (h0 : ∀ p, env.criticResp st.calls p = .error e0)
    (h1 : ∀ p, env.criticResp (st.calls + 1) p = .error e1)
    (hv0 : (validate_critique_output ("❌ 審核失敗：" ++ e0)).1 = false)
    (hv1 : (validate_critique_output ("❌ 審核失敗：" ++ e1)).1 = false) :
    criticize_plan env plan st =
      (.ok ("❌ 審核失敗：" ++ e0), { st with calls := st.calls + 1 }) ∧
    criticize_plan_with_validation env plan 2 st =
      (.ok ("❌ 審核失敗：" ++ e1),
       { calls := st.calls + 2, sleeps := st.sleeps + 1,
         notices := if env.hasCallback
                    then st.notices ++
                      [retryNotice (validate_critique_output ("❌ 審核失敗：" ++ e0)).2 0,
                       finalNotice (validate_critique_output ("❌ 審核失敗：" ++ e1)).2]
                    else st.notices }) := by
  constructor
  · simp only [criticize_plan, hc, h0]
  · unfold criticize_plan_with_validation
    rw [criticize_loop]
    simp only [criticize_plan, hc, h0, hv0]
    norm_num
    rw [criticize_loop]
    simp only [criticize_plan, hc, h1, hv1]
    norm_num
    by_cases hcb : env.hasCallback <;> simp [hcb]

/-- Witness for C10: a stub raising `boom` on every attempt yields the
failure notice after two calls and one sleep. -/
theorem criticize_service_failure_soft_witness :
    criticize_plan
      { clientOk := .ok (), criticResp := fun _ _ => .error "boom",
        refineResp := fun _ => .ok "", hasCallback := false } "doc" GenState.init =
      (.ok "❌ 審核失敗：boom", { calls := 1, sleeps := 0, notices := [] }) ∧
    criticize_plan_with_validation
      { clientOk := .ok (), criticResp := fun _ _ => .error "boom",
        refineResp := fun _ => .ok "", hasCallback := false } "doc" 2 GenState.init =
      (.ok "❌ 審核失敗：boom", { calls := 2, sleeps := 1, notices := [] }) := by
  have h := criticize_service_failure_soft
    { clientOk := .ok (), criticResp := fun _ _ => .error "boom",
      refineResp := fun _ => .ok "", hasCallback := false } "doc" GenState.init
    "boom" "boom" rfl (fun p => rfl) (fun p => rfl) (by decide) (by decide)
  exact ⟨h.1, by rw [h.2]; rfl⟩

/-! ## Claims about run_deep_reflection (C3) -/

theorem criticize_plan_ok (env : Env) (plan : String) (st : GenState)
    (hc : env.clientOk = .ok ()) :
    ∃ c, criticize_plan env plan st = (.ok c, { st with calls := st.calls + 1 }) := by
  simp only [criticize_plan, hc]
  cases env.criticResp st.calls ("請審核以下 PRD：\n\n" ++ plan) with
  | error e => exact ⟨_, rfl⟩
  | ok t => exact ⟨_, rfl⟩

theorem criticize_loop_ok_at_1 (env : Env) (plan : String) (st : GenState)
    (hc : env.clientOk = .ok ()) :
    ∃ c st2, criticize_loop env plan 2 1 st = (.ok c, st2) := by
  obtain ⟨c, hcp⟩ := criticize_plan_ok env plan st hc
  rw [criticize_loop]
  norm_num
  rw [hcp]
  by_cases hv : (validate_critique_output c).1 <;> simp only [hv] <;> exact ⟨_, _, rfl⟩

theorem cpwv_ok (env : Env) (plan : String) (st : GenState)
    (hc : env.clientOk = .ok ()) :
    ∃ c st2, criticize_plan_with_validation env plan 2 st = (.ok c, st2) := by
  unfold criticize_plan_with_validation
  obtain ⟨c, hcp⟩ := criticize_plan_ok env plan st hc
  rw [criticize_loop]
  norm_num
  rw [hcp]
  by_cases hv : (validate_critique_output c).1
  · simp only [hv]
    exact ⟨_, _, rfl⟩
  · simp only [hv]
    norm_num
    exact criticize_loop_ok_at_1 env plan _ hc

/-- C3 counterexample: with `GEMINI_API_KEY` unset, `get_client()` at line
299 raises *before* the `try` block, so `run_deep_reflection` propagates
the exception to its caller — the claim's blanket "never raises to its
caller" fails on this input. -/
theorem run_deep_reflection_raises_on_client_failure :
    run_deep_reflection
      { clientOk := .error "GEMINI_API_KEY 環境變數未設定",
        criticResp := fun _ _ => .ok "", refineResp := fun _ => .ok "",
        hasCallback := false } "doc" GenState.init =
      (.error "GEMINI_API_KEY 環境變數未設定", GenState.init) := rfl

/-- C3 (amended): provided client initialisation succeeds,
`run_deep_reflection` never raises: it always returns an ok pair; when the
refine step raises it returns the failure notice together with the
original document unchanged; and when the refine call succeeds with empty
text it returns the original document unchanged as the refined result. -/
theorem run_deep_reflection_no_raise (env : Env) (plan : String) (st : GenState)
    (hc : env.clientOk = .ok ()) :
    (∃ c d st2, run_deep_reflection env plan st = (.ok (c, d), st2)) ∧
    (∀ e, (∀ p, env.refineResp p = .error e) →
      ∃ st2, run_deep_reflection env plan st = (.ok ("❌ 深度審核失敗：" ++ e, plan), st2)) ∧
    ((∀ p, env.refineResp p = .ok "") →
      ∃ c st2, run_deep_reflection env plan st = (.ok (c, plan), st2)) := by
  obtain ⟨c, st2, hcp⟩ := cpwv_ok env plan st hc
  refine ⟨?_, ?_, ?_⟩
  · simp only [run_deep_reflection, hc, hcp]
    cases hr : env.refineResp (refine_prompt plan c) with
    | error e => exact ⟨_, _, _, rfl⟩
    | ok t =>
      by_cases ht : t == "" <;> simp only [ht] <;> exact ⟨_, _, _, rfl⟩
  · intro e he
    simp only [run_deep_reflection, hc, hcp, he]
    exact ⟨_, rfl⟩
  · intro he
    simp only [run_deep_reflection, hc, hcp, he]
    exact ⟨_, _, rfl⟩

/-- Witness for C3 (amended) at concrete stubs: an all-ok run returns an
ok pair; a failing refine step returns the notice with the unchanged
document; an empty refine text returns the unchanged document. -/
theorem run_deep_reflection_no_raise_witness :
    (∃ c d st2,
      run_deep_reflection
        { clientOk := .ok (), criticResp := fun _ _ => .ok "x",
          refineResp := fun _ => .ok "y", hasCallback := false } "doc" GenState.init =
        (.ok (c, d), st2)) ∧
    (∃ st2,
      run_deep_reflection
        { clientOk := .ok (), criticResp := fun _ _ => .ok "x",
          refineResp := fun _ => .error "boom", hasCallback := false } "doc" GenState.init =
        (.ok ("❌ 深度審核失敗：boom", "doc"), st2)) ∧
    (∃ c st2,
      run_deep_reflection
        { clientOk := .ok (), criticResp := fun _ _ => .ok "x",
          refineResp := fun _ => .ok "", hasCallback := false } "doc" GenState.init =
        (.ok (c, "doc"), st2)) :=
  ⟨(run_deep_reflection_no_raise _ "doc" GenState.init rfl).1,
   (run_deep_reflection_no_raise _ "doc" GenState.init rfl).2.1 "boom" (fun p => rfl),
   (run_deep_reflection_no_raise _ "doc" GenState.init rfl).2.2 (fun p => rfl)⟩

/-! ## Claims about show_diff (C7, C8) -/

/-- C7: for every text X, including the empty string, when the unified
diff of X against itself is empty — the defining identity of a unified
diff engine — `show_diff(X, X)` returns the no-differences sentinel
rather than an empty or line-tagged rendering. -/
theorem show_diff_self_sentinel
    (udiff : List String → List String → List String)
    (hid : ∀ ls, udiff ls ls = [])
    (x : String) :
    show_diff udiff x x = no_diff_sentinel := by
  have hnil : String.intercalate "\n" ([] : List String) = "" := rfl
  simp [show_diff, hid, hnil]

/-- Witness for C7 with a concrete diff engine satisfying the identity. -/
theorem show_diff_self_sentinel_witness :
    show_diff (fun a b => if a == b then [] else ["+x"]) "abc" "abc" = no_diff_sentinel :=
  show_diff_self_sentinel _ (fun ls => by simp) "abc"

/-- One-pass character-level specification of the escaping: `&` first,
then `<`, then `>`. -/
def escapeChar (c : Char) : List Char :=
  if c = '&' then "&amp;".data
  else if c = '<' then "&lt;".data
  else if c = '>' then "&gt;".data
  else [c]

theorem flatMap3_escape (l : List Char) :
    ((l.flatMap fun x => if x = '&' then "&amp;".data else [x]).flatMap
      (fun x => if x = '<' then "&lt;".data else [x])).flatMap
      (fun x => if x = '>' then "&gt;".data else [x]) = l.flatMap escapeChar := by
  induction l with
  | nil => rfl
  | cons c t ih =>
    simp only [List.flatMap_cons, List.flatMap_append, ih]
    congr 1
    by_cases h1 : c = '&'
    · subst h1; decide
    · by_cases h2 : c = '<'
      · subst h2; decide
      · by_cases h3 : c = '>'
        · subst h3; decide
        · simp [escapeChar, h1, h2, h3]

theorem htmlEscape_charwise (line : String) :
    (htmlEscape line).data = line.data.flatMap escapeChar :=
  flatMap3_escape line.data

theorem sw_plus {line : String} (h : startswith line "+" = true) :
    ∃ t, line.data = '+' :: t := by
  simp only [startswith, List.isPrefixOf_iff_prefix] at h
  obtain ⟨t, ht⟩ := h
  exact ⟨t, ht.symm⟩

theorem sw_minus {line : String} (h : startswith line "-" = true) :
    ∃ t, line.data = '-' :: t := by
  simp only [startswith, List.isPrefixOf_iff_prefix] at h
  obtain ⟨t, ht⟩ := h
  exact ⟨t, ht.symm⟩

theorem sw_at {line : String} (h : startswith line "@@" = true) :
    ∃ t, line.data = '@' :: t := by
  simp only [startswith, List.isPrefixOf_iff_prefix] at h
  obtain ⟨t, ht⟩ := h
  exact ⟨'@' :: t, ht.symm⟩

theorem sw_trans {line : String} (p q : String) (hpq : p.data <+: q.data)
    (h : startswith line q = true) : startswith line p = true := by
  simp only [startswith, List.isPrefixOf_iff_prefix] at h ⊢
  exact hpq.trans h

/-- C8: every rendered diff line is escaped with `&` replaced first (the
three sequential one-character replacements coincide with a single
character-wise pass) and tagged by prefix, the `+++`/`---` file-header
rule taking precedence over the single `+`/`-` rules, `@@` marking hunks,
and everything else passing through as plain context; a non-empty
rendering is exactly the `<pre>` wrapper around the newline-joined tagged
lines. -/
theorem diff_rendering_correct :
    (∀ line : String, (htmlEscape line).data = line.data.flatMap escapeChar) ∧
    (∀ line : String, startswith line "+++" = true ∨ startswith line "---" = true →
      tagLine line = headerSpan (htmlEscape line)) ∧
    (∀ line : String, startswith line "+" = true → startswith line "+++" = false →
      tagLine line = addSpan (htmlEscape line)) ∧
    (∀ line : String, startswith line "-" = true → startswith line "---" = false →
      tagLine line = delSpan (htmlEscape line)) ∧
    (∀ line : String, startswith line "@@" = true →
      tagLine line = hunkSpan (htmlEscape line)) ∧
    (∀ line : String, startswith line "+" = false → startswith line "-" = false →
      startswith line "@@" = false → tagLine line = htmlEscape line) ∧
    (∀ (udiff : List String → List String → List String) (old_content new_content : String),
      String.intercalate "\n" (udiff (splitlines old_content) (splitlines new_content)) ≠ "" →
      show_diff udiff old_content new_content =
        preOpen ++ String.intercalate "\n"
          (((String.intercalate "\n"
              (udiff (splitlines old_content) (splitlines new_content))).splitOn "\n").map
            tagLine) ++ "</pre>") := by
  refine ⟨htmlEscape_charwise, ?_, ?_, ?_, ?_, ?_, ?_⟩
  · intro line h
    rcases h with h | h <;> simp [tagLine, h]
  · intro line h hn
    obtain ⟨t, ht⟩ := sw_plus h
    have hm : startswith line "---" = false := by
      simp only [startswith, ht]; rfl
    simp [tagLine, h, hn, hm]
  · intro line h hn
    obtain ⟨t, ht⟩ := sw_minus h
    have hp : startswith line "+" = false := by
      simp only [startswith, ht]; rfl
    have hppp : startswith line "+++" = false := by
      simp only [startswith, ht]; rfl
    simp [tagLine, h, hn, hp, hppp]
  · intro line h
    obtain ⟨t, ht⟩ := sw_at h
    have h1 : startswith line "+++" = false := by simp only [startswith, ht]; rfl
    have h2 : startswith line "---" = false := by simp only [startswith, ht]; rfl
    have h3 : startswith line "+" = false := by simp only [startswith, ht]; rfl
    have h4 : startswith line "-" = false := by simp only [startswith, ht]; rfl
    simp [tagLine, h, h1, h2, h3, h4]
  · intro line h1 h2 h3
    have hppp : startswith line "+++" = false := by
      cases hsw : startswith line "+++" with
      | false => rfl
      | true => exact absurd (sw_trans "+" "+++" (by decide) hsw) (by simp [h1])
    have hmmm : startswith line "---" = false := by
      cases hsw : startswith line "---" with
      | false => rfl
      | true => exact absurd (sw_trans "-" "---" (by decide) hsw) (by simp [h2])
    simp [tagLine, h1, h2, h3, hppp, hmmm]
  · intro udiff old_content new_content h
    simp [show_diff, h]

/-- Witness for C8: one line of each category rendered on a concrete diff. -/
theorem diff_rendering_correct_witness :
    tagLine "+++ n" = headerSpan (htmlEscape "+++ n") ∧
    tagLine "+a&b" = addSpan (htmlEscape "+a&b") ∧
    tagLine "-a<b" = delSpan (htmlEscape "-a<b") ∧
    tagLine "@@ -1 +1 @@" = hunkSpan (htmlEscape "@@ -1 +1 @@") ∧
    tagLine " ctx" = htmlEscape " ctx" ∧
    show_diff (fun _ _ => ["+a"]) "x" "y" =
      preOpen ++ String.intercalate "\n"
        (((String.intercalate "\n" (["+a"] : List String)).splitOn "\n").map tagLine) ++
      "</pre>" :=
  ⟨diff_rendering_correct.2.1 "+++ n" (Or.inl (by decide)),
   diff_rendering_correct.2.2.1 "+a&b" (by decide) (by decide),
   diff_rendering_correct.2.2.2.1 "-a<b" (by decide) (by decide),
   diff_rendering_correct.2.2.2.2.1 "@@ -1 +1 @@" (by decide),
   diff_rendering_correct.2.2.2.2.2.1 " ctx" (by decide) (by decide) (by decide),
   diff_rendering_correct.2.2.2.2.2.2 (fun _ _ => ["+a"]) "x" "y" (by decide)⟩

/-! ## Claims about create_prd_zip (C9) -/

theorem strip_chars (l : List Char) :
    ((l.flatMap fun x => if x = '#' then ("" : String).data else [x]).flatMap
      (fun x => if x = '*' then ("" : String).data else [x])).flatMap
      (fun x => if x = Char.ofNat 96 then ("" : String).data else [x]) =
      l.filter fun ch => !(ch == '#' || ch == '*' || ch == Char.ofNat 96) := by
  induction l with
  | nil => rfl
  | cons c t ih =>
    simp only [List.flatMap_cons, List.flatMap_append, ih]
    by_cases h1 : c = '#'
    · simp [h1]
    · by_cases h2 : c = '*'
      · simp [h2]
      · by_cases h3 : c = Char.ofNat 96
        · simp [h3]
        · simp [h1, h2, h3]

/-- The three sequential single-character removals of
`convert_markdown_to_txt` amount to one character-wise filter dropping
`#`, `*` and the backtick. -/
theorem convert_markdown_to_txt_strip (s : String) :
    convert_markdown_to_txt s =
      ⟨s.data.filter fun ch => !(ch == '#' || ch == '*' || ch == Char.ofNat 96)⟩ := by
  have h := strip_chars s.data
  unfold convert_markdown_to_txt pyReplace1
  exact congrArg String.mk h

/-- C9: with a non-empty critique the archive entries are exactly
`prd.md`, `prd.html`, `prd.txt`, `critique.md`, `critique.html`, and with
no critique exactly the first three; the `prd.md` entry is the primary
content verbatim and the `prd.txt` entry is the primary content with
every `#`, `*` and backtick removed. -/
theorem create_prd_zip_correct (strftime_now prd critique : String) :
    ((create_prd_zip strftime_now prd none).map Prod.fst =
      ["prd.md", "prd.html", "prd.txt"]) ∧
    (critique ≠ "" →
      (create_prd_zip strftime_now prd (some critique)).map Prod.fst =
        ["prd.md", "prd.html", "prd.txt", "critique.md", "critique.html"]) ∧
    (∀ opt : Option String,
      (create_prd_zip strftime_now prd opt).lookup "prd.md" = some prd) ∧
    (∀ opt : Option String,
      (create_prd_zip strftime_now prd opt).lookup "prd.txt" =
        some ⟨prd.data.filter fun ch => !(ch == '#' || ch == '*' || ch == Char.ofNat 96)⟩) := by
  have k1 : (("prd.md" : String) == "prd.md") = true := rfl
  have k2 : (("prd.txt" : String) == "prd.md") = false := rfl
  have k3 : (("prd.txt" : String) == "prd.html") = false := rfl
  have k4 : (("prd.txt" : String) == "prd.txt") = true := rfl
  refine ⟨by simp [create_prd_zip], ?_, ?_, ?_⟩
  · intro h
    simp [create_prd_zip, h]
  · intro opt
    rcases opt with _ | c
    · simp [create_prd_zip, List.lookup, k1]
    · by_cases hc : c = "" <;> simp [create_prd_zip, hc, List.lookup, k1]
  · intro opt
    rcases opt with _ | c
    · simp [create_prd_zip, List.lookup, k2, k3, k4, convert_markdown_to_txt_strip]
    · by_cases hc : c = "" <;>
        simp [create_prd_zip, hc, List.lookup, k2, k3, k4, convert_markdown_to_txt_strip]

/-- Witness for C9 on a concrete document and critique. -/
theorem create_prd_zip_correct_witness :
    (create_prd_zip "T" "# a*b" (some "crit")).map Prod.fst =
      ["prd.md", "prd.html", "prd.txt", "critique.md", "critique.html"] ∧
    (create_prd_zip "T" "# a*b" (some "crit")).lookup "prd.md" = some "# a*b" ∧
    (create_prd_zip "T" "# a*b" (some "crit")).lookup "prd.txt" = some " ab" :=
  ⟨(create_prd_zip_correct "T" "# a*b" "crit").2.1 (by decide),
   (create_prd_zip_correct "T" "# a*b" "crit").2.2.1 (some "crit"),
   by rw [(create_prd_zip_correct "T" "# a*b" "crit").2.2.2 (some "crit")]; rfl⟩

end PRDStudio
